import Mathlib

/-!
Shallow embedding of `src/archiver/granola_fetcher.py`.

The module wraps an external API client (`granola_client.GranolaClient`) and
exposes three read operations on a `GranolaFetcher`:

* `fetch_new_documents(since, workspace_ids)` — pull the client's whole lazy
  document enumeration, then filter by update time (when `since` is given,
  normalising a naive value to UTC first) and by workspace membership (when
  `workspace_ids` is given and non-empty, since Python treats an empty list
  as falsy);
* `fetch_document_details(document)` — fetch transcript segments and a
  metadata object from the client, join the segment texts with a blank line,
  and export the metadata to a mapping when the object supports `model_dump`,
  else use an empty mapping;
* `fetch_document_by_id(document_id)` — linear early-exit scan of the
  client's lazy enumeration for the first identifier match.

Python exceptions are modelled with `Except`; the client's lazy async
enumeration is modelled as the list of documents it yields paired with an
optional error it raises after them (in place of normal exhaustion).
-/

deriving instance DecidableEq for Except

/-- A Python exception value, carried opaquely as its textual description. -/
abbrev PyError := String

/-- Model of a Python `datetime`: `wall` is the wall-clock reading collapsed
to one integer scale, `tz` is the `tzinfo` UTC offset (`none` = naive).
`replace(tzinfo=timezone.utc)` keeps `wall` and sets `tz := some 0`; the
absolute instant of an aware value is `wall - offset`. -/
structure PyDatetime where
  wall : Int
  tz : Option Int
deriving DecidableEq, Repr

/-- Python `a >= b` on datetimes: naive/naive compares wall clocks,
aware/aware compares absolute instants, mixed raises `TypeError`. -/
def dtGe (a b : PyDatetime) : Except PyError Bool :=
  match a.tz, b.tz with
  | none, none => .ok (decide (b.wall ≤ a.wall))
  | some oa, some ob => .ok (decide (b.wall - ob ≤ a.wall - oa))
  | _, _ => .error "TypeError: comparison of naive and aware datetime"

/-- The attributes of a `granola_client.Document` this module reads. -/
structure Document where
  document_id : String
  updated_at : String
  workspace_id : String
deriving DecidableEq, Repr

/-- A transcript segment: `text = some t` iff `hasattr(segment, "text")`,
`str_repr` is the `str(segment)` fallback. -/
structure TranscriptSegment where
  text : Option String
  str_repr : String
deriving DecidableEq, Repr

/-- The metadata object returned by the client: `model_dump = some m` iff
`hasattr(metadata_obj, "model_dump")`, with `m` its exported mapping. -/
structure MetadataObj where
  model_dump : Option (List (String × String))
deriving DecidableEq, Repr

/-- `DocumentDetails`: container for complete document information. -/
structure DocumentDetails where
  document : Document
  transcript : String
  metadata : List (String × String)
deriving DecidableEq, Repr

/-- The external client boundary consumed by the fetcher.
`list_all_documents` is the lazy async enumeration: the documents it yields,
paired with `some e` when it raises `e` after them instead of exhausting. -/
structure GranolaClient where
  list_all_documents : List Document × Option PyError
  get_document_transcript : String → Except PyError (List TranscriptSegment)
  get_document_metadata : String → Except PyError MetadataObj

/-- `GranolaFetcher`: its only instance attribute is the client handle. -/
structure GranolaFetcher where
  client : GranolaClient

/-- `GranolaFetcher.__init__`: `if token:` is Python truthiness, so a `None`
or empty-string token selects the no-argument constructor (auto-detect);
`mkClient` stands for the external `GranolaClient` constructor. -/
def GranolaFetcher.init (mkClient : Option String → GranolaClient)
    (token : Option String) : GranolaFetcher :=
  match token with
  | some t => if t = "" then ⟨mkClient none⟩ else ⟨mkClient (some t)⟩
  | none => ⟨mkClient none⟩

/-- `[doc async for doc in self.client.list_all_documents()]`: the whole lazy
enumeration is pulled to completion, so an error raised mid-stream surfaces. -/
def pullAll : List Document × Option PyError → Except PyError (List Document)
  | (docs, none) => .ok docs
  | (_, some e) => .error e

/-- `since.replace(tzinfo=timezone.utc)` applied only when `since` is naive. -/
def normSince (s : PyDatetime) : PyDatetime :=
  if s.tz = none then { wall := s.wall, tz := some 0 } else s

/-- One evaluation of `parse_datetime(doc.updated_at) >= since`: the parse
error or comparison `TypeError`, when one occurs, is the result. -/
def docSinceTest (parse : String → Except PyError PyDatetime) (s : PyDatetime)
    (d : Document) : Except PyError Bool :=
  match parse d.updated_at with
  | .error e => .error e
  | .ok t => dtGe t s

/-- Boolean reading of `docSinceTest` on documents where it succeeds. -/
def keepSince (parse : String → Except PyError PyDatetime) (s : PyDatetime)
    (d : Document) : Bool :=
  match docSinceTest parse s d with
  | .ok true => true
  | _ => false

/-- Succeeded or raised, as a Boolean. -/
def exceptOk {α : Type} : Except PyError α → Bool
  | .ok _ => true
  | .error _ => false

/-- The comprehension
`[doc for doc in all_documents if parse_datetime(doc.updated_at) >= since]`:
elements are tested left to right and the first raised error propagates. -/
def filterSince (parse : String → Except PyError PyDatetime) (s : PyDatetime) :
    List Document → Except PyError (List Document)
  | [] => .ok []
  | d :: rest =>
    match docSinceTest parse s d with
    | .error e => .error e
    | .ok b =>
      match filterSince parse s rest with
      | .error e => .error e
      | .ok tail => .ok (if b then d :: tail else tail)

/-- The `if since:` block of `fetch_new_documents` (a datetime is always
truthy, so the test is exactly presence). -/
def applySinceFilter (parse : String → Except PyError PyDatetime)
    (since : Option PyDatetime) (docs : List Document) :
    Except PyError (List Document) :=
  match since with
  | none => .ok docs
  | some s => filterSince parse (normSince s) docs

/-- The `if workspace_ids:` block: Python truthiness makes both `None` and
the empty list skip the filter. -/
def applyWorkspaceFilter (workspace_ids : Option (List String))
    (docs : List Document) : List Document :=
  match workspace_ids with
  | none => docs
  | some ws =>
    if ws.isEmpty then docs
    else docs.filter (fun d => ws.contains d.workspace_id)

/-- `GranolaFetcher.fetch_new_documents`; `parse` stands for
`dateutil.parser.parse`. The second component is the fetcher after the call
(the method assigns no instance attribute). -/
def GranolaFetcher.fetch_new_documents (self : GranolaFetcher)
    (parse : String → Except PyError PyDatetime)
    (since : Option PyDatetime) (workspace_ids : Option (List String)) :
    Except PyError (List Document) × GranolaFetcher :=
  (match pullAll self.client.list_all_documents with
   | .error e => .error e
   | .ok all =>
     match applySinceFilter parse since all with
     | .error e => .error e
     | .ok filtered => .ok (applyWorkspaceFilter workspace_ids filtered),
   self)

/-- `segment.text if hasattr(segment, "text") else str(segment)`. -/
def segmentText (segment : TranscriptSegment) : String :=
  match segment.text with
  | some t => t
  | none => segment.str_repr

/-- `GranolaFetcher._format_transcript_segments`. -/
def format_transcript_segments (segments : List TranscriptSegment) : String :=
  if segments.isEmpty then ""
  else String.intercalate "\n\n" (segments.map segmentText)

/-- `GranolaFetcher.fetch_document_details`: transcript first, then metadata;
either client call raising propagates, a metadata object without
`model_dump` yields the empty mapping. -/
def GranolaFetcher.fetch_document_details (self : GranolaFetcher)
    (document : Document) : Except PyError DocumentDetails × GranolaFetcher :=
  (match self.client.get_document_transcript document.document_id with
   | .error e => .error e
   | .ok transcript_segments =>
     let transcript := format_transcript_segments transcript_segments
     match self.client.get_document_metadata document.document_id with
     | .error e => .error e
     | .ok metadata_obj =>
       let metadata :=
         match metadata_obj.model_dump with
         | some m => m
         | none => []
       .ok ⟨document, transcript, metadata⟩,
   self)

/-- The `async for` scan of `fetch_document_by_id`: documents are pulled one
at a time; a match returns before the next pull, so an error the enumeration
would raise after its yielded documents is hit only on an exhaustive scan. -/
def scanById : List Document → Option PyError → String →
    Except PyError (Option Document)
  | [], none, _ => .ok none
  | [], some e, _ => .error e
  | d :: rest, tail, document_id =>
    if d.document_id = document_id then .ok (some d)
    else scanById rest tail document_id

/-- `GranolaFetcher.fetch_document_by_id`. -/
def GranolaFetcher.fetch_document_by_id (self : GranolaFetcher)
    (document_id : String) :
    Except PyError (Option Document) × GranolaFetcher :=
  (scanById self.client.list_all_documents.1
    self.client.list_all_documents.2 document_id,
   self)

/-- The same scan instrumented with the number of documents pulled from the
enumeration: a match at the head costs one pull and stops. -/
def fetch_by_id_traced : List Document → String → Nat × Option Document
  | [], _ => (0, none)
  | d :: rest, document_id =>
    if d.document_id = document_id then (1, some d)
    else
      let r := fetch_by_id_traced rest document_id
      (r.1 + 1, r.2)

/-! Concrete sample client, fetcher and parse function used by witnesses and
counterexamples. `docA` is older than the sample threshold, `docB` newer. -/

/-- Sample parse function standing in for `dateutil.parser.parse`. -/
def parse0 : String → Except PyError PyDatetime := fun u =>
  if u = "2024-01-01T00:00:00Z" then .ok ⟨100, some 0⟩
  else if u = "2024-02-01T00:00:00Z" then .ok ⟨200, some 0⟩
  else .error ("ParserError: " ++ u)

/-- Sample document in workspace `w1`, updated at instant 100. -/
def docA : Document := ⟨"a", "2024-01-01T00:00:00Z", "w1"⟩

/-- Sample document in workspace `w2`, updated at instant 200. -/
def docB : Document := ⟨"b", "2024-02-01T00:00:00Z", "w2"⟩

/-- Sample document whose update timestamp `parse0` rejects. -/
def docBad : Document := ⟨"c", "not-a-timestamp", "w1"⟩

/-- Sample client enumerating `docA` then `docB`, exhausting cleanly. -/
def clientAB : GranolaClient :=
  ⟨([docA, docB], none), fun _ => .ok [], fun _ => .ok ⟨none⟩⟩

/-- Sample fetcher over `clientAB`. -/
def fetcherAB : GranolaFetcher := ⟨clientAB⟩

/-! Helper lemmas about the filtering and scanning recursions. -/

/-- When every element's since-test succeeds, the comprehension is the pure
`List.filter` by the Boolean reading of the test. -/
theorem filterSince_ok (parse : String → Except PyError PyDatetime)
    (s : PyDatetime) :
    ∀ docs : List Document,
      (∀ d ∈ docs, exceptOk (docSinceTest parse s d) = true) →
      filterSince parse s docs = .ok (docs.filter (keepSince parse s)) := by
  intro docs h
  induction docs with
  | nil => simp [filterSince]
  | cons d rest ih =>
    have hd := h d (List.mem_cons_self d rest)
    have hrest := ih (fun x hx => h x (List.mem_cons_of_mem d hx))
    cases hb : docSinceTest parse s d with
    | error e => rw [hb] at hd; simp [exceptOk] at hd
    | ok b =>
      rw [filterSince, hb, hrest]
      cases b <;> simp [List.filter_cons, keepSince, hb]

/-- The first element whose since-test raises decides the comprehension:
its error is the result. -/
theorem filterSince_error (parse : String → Except PyError PyDatetime)
    (s : PyDatetime) (d : Document) (e : PyError) :
    ∀ pre post : List Document,
      (∀ x ∈ pre, exceptOk (docSinceTest parse s x) = true) →
      docSinceTest parse s d = .error e →
      filterSince parse s (pre ++ d :: post) = .error e := by
  intro pre post hpre hd
  induction pre with
  | nil => simp [filterSince, hd]
  | cons x xs ih =>
    have hx := hpre x (List.mem_cons_self x xs)
    have hxs := ih (fun y hy => hpre y (List.mem_cons_of_mem x hy))
    cases hb : docSinceTest parse s x with
    | error e2 => rw [hb] at hx; simp [exceptOk] at hx
    | ok b => rw [List.cons_append, filterSince, hb, hxs]

/-- On a cleanly exhausting enumeration the scan is `List.find?` on the
identifier. -/
theorem scanById_find (document_id : String) :
    ∀ docs : List Document,
      scanById docs none document_id
        = .ok (docs.find? (fun d => d.document_id == document_id)) := by
  intro docs
  induction docs with
  | nil => rfl
  | cons d rest ih =>
    by_cases h : d.document_id = document_id
    · simp [scanById, h, List.find?_cons]
    · simp [scanById, h, List.find?_cons, ih]

/-- An exhaustive scan of a matchless enumeration reaches the error the
enumeration raises at its end. -/
theorem scanById_error (document_id : String) (e : PyError) :
    ∀ docs : List Document,
      (∀ x ∈ docs, x.document_id ≠ document_id) →
      scanById docs (some e) document_id = .error e := by
  intro docs h
  induction docs with
  | nil => rfl
  | cons d rest ih =>
    have hd := h d (List.mem_cons_self d rest)
    simp [scanById, hd, ih (fun x hx => h x (List.mem_cons_of_mem d hx))]

/-- A mid-stream error surfaces when the enumeration is pulled to
completion. -/
theorem pullAll_error (p : List Document × Option PyError) (e : PyError)
    (h : p.2 = some e) : pullAll p = .error e := by
  obtain ⟨docs, t⟩ := p
  cases t with
  | none => simp at h
  | some e2 => simp at h; subst h; rfl

/-! The claims. -/

/-- C1: for every document list `D` returned by the external client and every
provided threshold `since`, `fetch_new_documents since` returns exactly the
documents of `D` whose parsed update timestamp is `>= since` (the naive
threshold normalised to UTC, as the code compares it), preserving the
original relative order of `D`. -/
theorem C1_fetch_new_documents_since_filter
    (f : GranolaFetcher) (parse : String → Except PyError PyDatetime)
    (s : PyDatetime) (docsD : List Document)
    (hstream : f.client.list_all_documents = (docsD, none))
    (hok : ∀ d ∈ docsD, exceptOk (docSinceTest parse (normSince s) d) = true) :
    (f.fetch_new_documents parse (some s) none).1
      = Except.ok (docsD.filter (keepSince parse (normSince s)))
    ∧ (∀ d, d ∈ docsD.filter (keepSince parse (normSince s))
        ↔ d ∈ docsD ∧ keepSince parse (normSince s) d = true)
    ∧ (docsD.filter (keepSince parse (normSince s))).Sublist docsD := by
  refine ⟨?_, fun d => List.mem_filter, List.filter_sublist docsD⟩
  simp [GranolaFetcher.fetch_new_documents, hstream, pullAll, applySinceFilter,
    applyWorkspaceFilter, filterSince_ok parse (normSince s) docsD hok]

/-- Witness for C1 at the sample fetcher with the naive threshold at instant
150: `docA` (instant 100) is dropped, `docB` (instant 200) is kept. -/
theorem C1_fetch_new_documents_since_filter_witness :
    (fetcherAB.fetch_new_documents parse0 (some ⟨150, none⟩) none).1
      = Except.ok ([docA, docB].filter (keepSince parse0 (normSince ⟨150, none⟩)))
    ∧ (∀ d, d ∈ [docA, docB].filter (keepSince parse0 (normSince ⟨150, none⟩))
        ↔ d ∈ [docA, docB] ∧ keepSince parse0 (normSince ⟨150, none⟩) d = true)
    ∧ ([docA, docB].filter (keepSince parse0 (normSince ⟨150, none⟩))).Sublist
        [docA, docB] :=
  C1_fetch_new_documents_since_filter fetcherAB parse0 ⟨150, none⟩ [docA, docB]
    rfl (by decide)

/-- C2 counterexample: with the empty workspace list, `fetch_new_documents`
returns the whole document list, not the empty intersection the claim
demands (no document has its workspace in the empty set). -/
theorem C2_workspace_filter_counterexample :
    (fetcherAB.fetch_new_documents parse0 none (some [])).1
      = Except.ok [docA, docB]
    ∧ [docA, docB].filter (fun d => ([] : List String).contains d.workspace_id)
      = []
    ∧ (fetcherAB.fetch_new_documents parse0 none (some [])).1
      ≠ Except.ok ([docA, docB].filter
          (fun d => ([] : List String).contains d.workspace_id)) := by
  refine ⟨rfl, rfl, ?_⟩
  decide

/-- C2 amended: for every document list `D` returned by the client and every
provided NON-EMPTY workspace set `W`, `fetch_new_documents none W` returns
exactly the documents of `D` whose workspace identifier is in `W`; with both
a threshold and a non-empty `W` the result is the intersection, the since
filter applied first. (An empty `W` is falsy in Python, so the workspace
filter is skipped — see C7.) -/
theorem C2_workspace_filter_amended
    (f : GranolaFetcher) (parse : String → Except PyError PyDatetime)
    (docsD : List Document) (ws : List String) (s : PyDatetime)
    (hstream : f.client.list_all_documents = (docsD, none))
    (hws : ws ≠ []) :
    ((f.fetch_new_documents parse none (some ws)).1
      = Except.ok (docsD.filter (fun d => ws.contains d.workspace_id)))
    ∧ (∀ d, d ∈ docsD.filter (fun d => ws.contains d.workspace_id)
        ↔ d ∈ docsD ∧ ws.contains d.workspace_id = true)
    ∧ ((∀ d ∈ docsD, exceptOk (docSinceTest parse (normSince s) d) = true) →
        (f.fetch_new_documents parse (some s) (some ws)).1
          = Except.ok ((docsD.filter (keepSince parse (normSince s))).filter
              (fun d => ws.contains d.workspace_id))) := by
  have hempty : ws.isEmpty = false := by
    cases ws with
    | nil => exact absurd rfl hws
    | cons x xs => rfl
  refine ⟨?_, fun d => List.mem_filter, fun hok => ?_⟩
  · simp [GranolaFetcher.fetch_new_documents, hstream, pullAll,
      applySinceFilter, applyWorkspaceFilter, hempty]
  · simp [GranolaFetcher.fetch_new_documents, hstream, pullAll,
      applySinceFilter, applyWorkspaceFilter, hempty,
      filterSince_ok parse (normSince s) docsD hok]

/-- Witness for the amended C2 at the sample fetcher with `W = [w2]` and the
naive threshold at instant 150. -/
theorem C2_workspace_filter_amended_witness :
    ((fetcherAB.fetch_new_documents parse0 none (some ["w2"])).1
      = Except.ok ([docA, docB].filter (fun d => ["w2"].contains d.workspace_id)))
    ∧ (∀ d, d ∈ [docA, docB].filter (fun d => ["w2"].contains d.workspace_id)
        ↔ d ∈ [docA, docB] ∧ ["w2"].contains d.workspace_id = true)
    ∧ ((∀ d ∈ [docA, docB],
          exceptOk (docSinceTest parse0 (normSince ⟨150, none⟩) d) = true) →
        (fetcherAB.fetch_new_documents parse0 (some ⟨150, none⟩) (some ["w2"])).1
          = Except.ok (([docA, docB].filter
              (keepSince parse0 (normSince ⟨150, none⟩))).filter
              (fun d => ["w2"].contains d.workspace_id))) :=
  C2_workspace_filter_amended fetcherAB parse0 [docA, docB] ["w2"] ⟨150, none⟩
    rfl (by decide)

/-- C3: the transcript is the segment texts joined with a blank line
("\n\n"): the empty segment list yields "", the segments Hello and World
yield "Hello\n\nWorld", and `fetch_document_details` puts exactly
`format_transcript_segments` of the client's segments in its result. -/
theorem C3_transcript_join
    (texts : List String) (f : GranolaFetcher) (document : Document)
    (segs : List TranscriptSegment) :
    format_transcript_segments (texts.map (fun t => ⟨some t, ""⟩))
      = String.intercalate "\n\n" texts
    ∧ format_transcript_segments [] = ""
    ∧ format_transcript_segments [⟨some "Hello", ""⟩, ⟨some "World", ""⟩]
      = "Hello\n\nWorld"
    ∧ (f.client.get_document_transcript document.document_id = .ok segs →
        ∀ dd, (f.fetch_document_details document).1 = .ok dd →
          dd.transcript = format_transcript_segments segs) := by
  refine ⟨?_, rfl, rfl, fun hseg dd hdd => ?_⟩
  · cases texts with
    | nil => rfl
    | cons t ts =>
      have hc : (segmentText ∘ fun t => (⟨some t, ""⟩ : TranscriptSegment))
          = id := by
        funext x
        rfl
      simp [format_transcript_segments, List.map_map, hc, segmentText]
  · unfold GranolaFetcher.fetch_document_details at hdd
    rw [hseg] at hdd
    cases hmd : f.client.get_document_metadata document.document_id with
    | error e => rw [hmd] at hdd; simp at hdd
    | ok m =>
      rw [hmd] at hdd
      simp at hdd
      rw [← hdd]

/-- C4: on a cleanly exhausting enumeration, `fetch_document_by_id` returns
the first document in enumeration order whose identifier equals the given
one, and an exhaustive matchless scan yields the explicit absent result
`none`, not an error. -/
theorem C4_fetch_document_by_id_first_match
    (f : GranolaFetcher) (document_id : String)
    (hclean : f.client.list_all_documents.2 = none) :
    (f.fetch_document_by_id document_id).1
      = Except.ok (f.client.list_all_documents.1.find?
          (fun d => d.document_id == document_id))
    ∧ ((∀ d ∈ f.client.list_all_documents.1, d.document_id ≠ document_id) →
        (f.fetch_document_by_id document_id).1 = Except.ok none) := by
  have hmain : (f.fetch_document_by_id document_id).1
      = Except.ok (f.client.list_all_documents.1.find?
          (fun d => d.document_id == document_id)) := by
    unfold GranolaFetcher.fetch_document_by_id
    rw [hclean, scanById_find]
  refine ⟨hmain, fun hnone => ?_⟩
  rw [hmain]
  congr 1
  rw [List.find?_eq_none]
  intro d hd
  simpa using hnone d hd

/-- Witness for C4: the sample enumeration holds no document `zzz`, so the
scan is exhaustive and absent. -/
theorem C4_fetch_document_by_id_first_match_witness :
    (fetcherAB.fetch_document_by_id "zzz").1
      = Except.ok (fetcherAB.client.list_all_documents.1.find?
          (fun d => d.document_id == "zzz"))
    ∧ ((∀ d ∈ fetcherAB.client.list_all_documents.1, d.document_id ≠ "zzz") →
        (fetcherAB.fetch_document_by_id "zzz").1 = Except.ok none) :=
  C4_fetch_document_by_id_first_match fetcherAB "zzz" rfl

/-- C5: when both client calls succeed, `fetch_document_details` does not
fail; a metadata object without the `model_dump` capability yields the empty
metadata mapping, and one with it yields exactly the exported mapping. -/
theorem C5_metadata_capability_default
    (f : GranolaFetcher) (document : Document)
    (segs : List TranscriptSegment) (m : MetadataObj)
    (htr : f.client.get_document_transcript document.document_id
      = Except.ok segs)
    (hmd : f.client.get_document_metadata document.document_id
      = Except.ok m) :
    (m.model_dump = none →
      (f.fetch_document_details document).1
        = Except.ok ⟨document, format_transcript_segments segs, []⟩)
    ∧ (∀ kv, m.model_dump = some kv →
        (f.fetch_document_details document).1
          = Except.ok ⟨document, format_transcript_segments segs, kv⟩) := by
  constructor
  · intro hnone
    simp [GranolaFetcher.fetch_document_details, htr, hmd, hnone]
  · intro kv hkv
    simp [GranolaFetcher.fetch_document_details, htr, hmd, hkv]

/-- Witness for C5: the sample client's metadata object lacks `model_dump`,
so the details succeed with the empty mapping. -/
theorem C5_metadata_capability_default_witness :
    ((⟨none⟩ : MetadataObj).model_dump = none →
      (fetcherAB.fetch_document_details docA).1
        = Except.ok ⟨docA, format_transcript_segments [], []⟩)
    ∧ (∀ kv, (⟨none⟩ : MetadataObj).model_dump = some kv →
        (fetcherAB.fetch_document_details docA).1
          = Except.ok ⟨docA, format_transcript_segments [], kv⟩) :=
  C5_metadata_capability_default fetcherAB docA [] ⟨none⟩ rfl rfl

/-- C6: a naive threshold filters identically to the equivalent UTC-aware
threshold (same wall clock, offset zero), for every client, parse function
and workspace argument. -/
theorem C6_naive_since_equals_utc
    (f : GranolaFetcher) (parse : String → Except PyError PyDatetime)
    (wall : Int) (ws : Option (List String)) :
    f.fetch_new_documents parse (some ⟨wall, none⟩) ws
      = f.fetch_new_documents parse (some ⟨wall, some 0⟩) ws := by
  simp [GranolaFetcher.fetch_new_documents, applySinceFilter, normSince]

/-- C7: an empty `workspace_ids` list is falsy in Python, so the workspace
filter is skipped entirely and the call behaves exactly as with no
workspace argument. -/
theorem C7_empty_workspace_list_skips_filter
    (f : GranolaFetcher) (parse : String → Except PyError PyDatetime)
    (since : Option PyDatetime) :
    f.fetch_new_documents parse since (some [])
      = f.fetch_new_documents parse since none := by
  simp [GranolaFetcher.fetch_new_documents, applyWorkspaceFilter]

/-- C8: the scan pulls no item after the first match: when the first match
sits at position `k` (after `k` non-matching documents), exactly `k + 1`
documents are pulled from the enumeration — independently of everything
behind the match — and that match is the result. -/
theorem C8_early_exit_pull_count
    (pre post : List Document) (d : Document) (document_id : String)
    (hpre : ∀ x ∈ pre, x.document_id ≠ document_id)
    (hd : d.document_id = document_id) :
    (fetch_by_id_traced (pre ++ d :: post) document_id).1 = pre.length + 1
    ∧ (fetch_by_id_traced (pre ++ d :: post) document_id).2 = some d := by
  induction pre with
  | nil => simp [fetch_by_id_traced, hd]
  | cons x xs ih =>
    have hx := hpre x (List.mem_cons_self x xs)
    have hxs := ih (fun y hy => hpre y (List.mem_cons_of_mem x hy))
    simp [fetch_by_id_traced, hx, hxs.1, hxs.2]

/-- Witness for C8: with one non-matching document ahead of the match,
exactly two documents are pulled. -/
theorem C8_early_exit_pull_count_witness :
    (fetch_by_id_traced ([docA] ++ docB :: []) "b").1 = [docA].length + 1
    ∧ (fetch_by_id_traced ([docA] ++ docB :: []) "b").2 = some docB :=
  C8_early_exit_pull_count [docA] [] docB "b" (by decide) (by decide)

/-- C9: failures propagate unchanged, with no retry, suppression or
fallback: an enumeration failure fails `fetch_new_documents` with the same
error; a timestamp parse failure (first reached in the since filter) fails
it with the parse error; a transcript or metadata call failure fails
`fetch_document_details` with that error; and an enumeration failure hit by
an exhaustive `fetch_document_by_id` scan fails it with that error. -/
theorem C9_errors_propagate_unchanged
    (f : GranolaFetcher) (parse : String → Except PyError PyDatetime)
    (e : PyError) (since : Option PyDatetime) (ws : Option (List String))
    (pre post : List Document) (d : Document) (s : PyDatetime)
    (document : Document) (document_id : String) :
    (f.client.list_all_documents.2 = some e →
      (f.fetch_new_documents parse since ws).1 = Except.error e)
    ∧ (f.client.list_all_documents = (pre ++ d :: post, none) →
        (∀ x ∈ pre, exceptOk (docSinceTest parse (normSince s) x) = true) →
        parse d.updated_at = Except.error e →
        (f.fetch_new_documents parse (some s) ws).1 = Except.error e)
    ∧ (f.client.get_document_transcript document.document_id
        = Except.error e →
        (f.fetch_document_details document).1 = Except.error e)
    ∧ (∀ segs, f.client.get_document_transcript document.document_id
        = Except.ok segs →
        f.client.get_document_metadata document.document_id = Except.error e →
        (f.fetch_document_details document).1 = Except.error e)
    ∧ (f.client.list_all_documents.2 = some e →
        (∀ x ∈ f.client.list_all_documents.1, x.document_id ≠ document_id) →
        (f.fetch_document_by_id document_id).1 = Except.error e) := by
  refine ⟨fun hmid => ?_, fun hstream hpre hparse => ?_,
    fun htr => ?_, fun segs htr hmd => ?_, fun hmid hnone => ?_⟩
  · simp [GranolaFetcher.fetch_new_documents,
      pullAll_error f.client.list_all_documents e hmid]
  · have htest : docSinceTest parse (normSince s) d = Except.error e := by
      simp [docSinceTest, hparse]
    simp [GranolaFetcher.fetch_new_documents, hstream, pullAll,
      applySinceFilter,
      filterSince_error parse (normSince s) d e pre post hpre htest]
  · simp [GranolaFetcher.fetch_document_details, htr]
  · simp [GranolaFetcher.fetch_document_details, htr, hmd]
  · simp only [GranolaFetcher.fetch_document_by_id]
    rw [hmid]
    exact scanById_error document_id e f.client.list_all_documents.1 hnone

/-- C10: the fetcher's whole state is the client handle — two fetchers with
the same client are equal — and every operation returns the fetcher
unchanged; construction chooses the client once from the token (Python
truthiness: a missing or empty token selects auto-detection). -/
theorem C10_fetcher_is_stateless
    (f : GranolaFetcher) (parse : String → Except PyError PyDatetime)
    (since : Option PyDatetime) (ws : Option (List String))
    (document : Document) (document_id : String)
    (mkClient : Option String → GranolaClient) (t : String) :
    (f.fetch_new_documents parse since ws).2 = f
    ∧ (f.fetch_document_details document).2 = f
    ∧ (f.fetch_document_by_id document_id).2 = f
    ∧ (∀ g : GranolaFetcher, g.client = f.client → g = f)
    ∧ (GranolaFetcher.init mkClient none).client = mkClient none
    ∧ (GranolaFetcher.init mkClient (some "")).client = mkClient none
    ∧ (t ≠ "" →
        (GranolaFetcher.init mkClient (some t)).client = mkClient (some t)) := by
  refine ⟨rfl, rfl, rfl, fun g h => ?_, rfl, rfl, fun ht => ?_⟩
  · cases g
    cases f
    simp at h
    rw [h]
  · simp [GranolaFetcher.init, ht]
